import Mathlib

/-!
Verification of the core logic of a story-generator application
(src/app.py): the token-budget estimator, the prompt builder and the
generation invoker, embedded shallowly and checked against the
specification.
-/

/-- Characters treated as whitespace by the Python method str.strip when
called with no argument: ASCII whitespace, the C0 separator characters
and the Unicode space characters. -/
def pyIsSpace (c : Char) : Bool :=
  ([' ', '\t', '\n', '\r', '\x0b', '\x0c', '\x1c', '\x1d', '\x1e', '\x1f',
    '\x85', '\u00A0', '\u1680', '\u2000', '\u2001', '\u2002', '\u2003',
    '\u2004', '\u2005', '\u2006', '\u2007', '\u2008', '\u2009', '\u200A',
    '\u2028', '\u2029', '\u202F', '\u205F', '\u3000'] : List Char).contains c

/-- List-level whitespace strip: drop whitespace from the front, then
from the back (by reversing). -/
def pyStripList (l : List Char) : List Char :=
  ((l.dropWhile pyIsSpace).reverse.dropWhile pyIsSpace).reverse

/-- Embedding of the Python expression s.strip() used in src/app.py. -/
def pyStrip (s : String) : String := String.mk (pyStripList s.data)

lemma dropWhile_dropWhile (p : Char → Bool) (l : List Char) :
    (l.dropWhile p).dropWhile p = l.dropWhile p := by
  induction l with
  | nil => rfl
  | cons a t ih =>
    cases hpa : p a with
    | true => simp [List.dropWhile_cons, hpa, ih]
    | false => simp [List.dropWhile_cons, hpa]

lemma head_dropWhile_false (p : Char → Bool) :
    ∀ (l : List Char) (a : Char) (t : List Char),
      l.dropWhile p = a :: t → p a = false := by
  intro l
  induction l with
  | nil => intro a t h; simp [List.dropWhile] at h
  | cons b l ih =>
    intro a t h
    cases hpb : p b with
    | false =>
      simp only [List.dropWhile_cons, hpb, Bool.false_eq_true, if_false,
        List.cons.injEq] at h
      rcases h with ⟨h1, _⟩
      rw [← h1]; exact hpb
    | true =>
      simp only [List.dropWhile_cons, hpb, if_true] at h
      exact ih a t h

lemma getLast?_dropWhile (p : Char → Bool) :
    ∀ l : List Char, l.dropWhile p ≠ [] →
      (l.dropWhile p).getLast? = l.getLast? := by
  intro l
  induction l with
  | nil => intro h; simp [List.dropWhile] at h
  | cons a t ih =>
    intro h
    cases hpa : p a with
    | false => simp [List.dropWhile_cons, hpa]
    | true =>
      simp only [List.dropWhile_cons, hpa, if_true] at h ⊢
      rw [ih h]
      cases t with
      | nil => simp [List.dropWhile] at h
      | cons b t2 => simp

lemma pyStripList_idem (l : List Char) :
    pyStripList (pyStripList l) = pyStripList l := by
  have key : (pyStripList l).dropWhile pyIsSpace = pyStripList l := by
    cases hm : pyStripList l with
    | nil => rfl
    | cons a t =>
      have ha : pyIsSpace a = false := by
        have h2 : (l.dropWhile pyIsSpace).reverse.dropWhile pyIsSpace ≠ [] := by
          intro hnil
          rw [pyStripList, hnil] at hm
          simp at hm
        have h4 : ((l.dropWhile pyIsSpace).reverse.dropWhile pyIsSpace).getLast?
            = some a := by
          rw [List.getLast?_eq_head?_reverse]
          rw [show ((l.dropWhile pyIsSpace).reverse.dropWhile pyIsSpace).reverse
              = pyStripList l from rfl, hm]
          rfl
        rw [getLast?_dropWhile pyIsSpace _ h2, List.getLast?_reverse] at h4
        cases hd : l.dropWhile pyIsSpace with
        | nil => rw [hd] at h4; simp at h4
        | cons b t2 =>
          rw [hd] at h4
          simp only [List.head?_cons, Option.some.injEq] at h4
          rw [← h4]
          exact head_dropWhile_false pyIsSpace l b t2 hd
      simp [List.dropWhile_cons, ha]
  calc pyStripList (pyStripList l)
      = (((pyStripList l).dropWhile pyIsSpace).reverse.dropWhile
          pyIsSpace).reverse := rfl
    _ = ((pyStripList l).reverse.dropWhile pyIsSpace).reverse := by rw [key]
    _ = (((l.dropWhile pyIsSpace).reverse.dropWhile pyIsSpace).dropWhile
          pyIsSpace).reverse := by
          rw [pyStripList, List.reverse_reverse]
    _ = ((l.dropWhile pyIsSpace).reverse.dropWhile pyIsSpace).reverse := by
          rw [dropWhile_dropWhile]
    _ = pyStripList l := rfl

lemma pyStrip_idem (s : String) : pyStrip (pyStrip s) = pyStrip s := by
  show String.mk (pyStripList (String.mk (pyStripList s.data)).data)
      = String.mk (pyStripList s.data)
  rw [show (String.mk (pyStripList s.data)).data = pyStripList s.data from rfl,
    pyStripList_idem]

/-- Embedding of estimate_max_tokens (src/app.py lines 8-11).  The Python
expression int(target_words * 1.33) is modelled exactly: the literal 1.33
denotes the rational 133/100 and int(..) truncates toward zero, which is
Int.tdiv on the scaled integer product. -/
def estimate_max_tokens (target_words : Int) : Int :=
  max 256 (min (Int.tdiv (target_words * 133) 100) 4096)

/-- Clamp x to the closed interval from lo to hi. -/
def clamp (lo hi x : Int) : Int := max lo (min x hi)

lemma floor_mul_ratio (n : Int) : ⌊(n : ℚ) * 1.33⌋ = (n * 133) / 100 := by
  have h133 : (1.33 : ℚ) = 133 / 100 := by norm_num
  have h : (n : ℚ) * 1.33 = ((n * 133 : Int) : ℚ) / ((100 : Nat) : ℚ) := by
    rw [h133]; push_cast; ring
  rw [h, Rat.floor_intCast_div_natCast]
  norm_num

lemma tdiv_133_nonpos {n : Int} (h : n ≤ 0) : Int.tdiv (n * 133) 100 ≤ 0 := by
  have h1 : (0 : Int) ≤ (-(n * 133)).tdiv 100 :=
    Int.tdiv_nonneg (by omega) (by norm_num)
  rw [Int.neg_tdiv] at h1
  omega

lemma tdiv_clamp_eq (n : Int) :
    estimate_max_tokens n = clamp 256 4096 ((n * 133) / 100) := by
  unfold estimate_max_tokens clamp
  rcases le_or_lt 0 n with h | h
  · rw [Int.tdiv_eq_ediv (by omega) (by norm_num)]
  · have ht : Int.tdiv (n * 133) 100 ≤ 0 := tdiv_133_nonpos (le_of_lt h)
    have he : (n * 133) / 100 ≤ 0 := by omega
    rw [min_eq_left (by omega), min_eq_left (by omega),
      max_eq_left (by omega), max_eq_left (by omega)]

/-- C1: for every integer targetWords, estimate_max_tokens targetWords
equals clamp(floor(targetWords * 1.33), 256, 4096); the result always
lies in the interval from 256 to 4096, is exactly 256 for zero or
negative input, and is 4096 at 4000, where floor(4000 * 1.33) = 5320
exceeds the upper clamp. -/
theorem estimate_max_tokens_spec :
    (∀ n : Int, estimate_max_tokens n = clamp 256 4096 ⌊(n : ℚ) * 1.33⌋
      ∧ 256 ≤ estimate_max_tokens n ∧ estimate_max_tokens n ≤ 4096)
    ∧ (∀ n : Int, n ≤ 0 → estimate_max_tokens n = 256)
    ∧ estimate_max_tokens 4000 = 4096
    ∧ ⌊((4000 : Int) : ℚ) * 1.33⌋ = 5320 := by
  refine ⟨fun n => ⟨?_, ?_, ?_⟩, fun n hn => ?_, ?_, ?_⟩
  · rw [floor_mul_ratio]; exact tdiv_clamp_eq n
  · exact le_max_left _ _
  · exact max_le (by norm_num) (le_trans (min_le_right _ _) (by norm_num))
  · show max 256 (min (Int.tdiv (n * 133) 100) 4096) = 256
    have ht : Int.tdiv (n * 133) 100 ≤ 0 := tdiv_133_nonpos hn
    rw [min_eq_left (by omega), max_eq_left (by omega)]
  · decide
  · rw [floor_mul_ratio]; decide

/-- Witness for C1 at a concrete negative input. -/
theorem estimate_max_tokens_spec_witness : estimate_max_tokens (-7) = 256 :=
  estimate_max_tokens_spec.2.1 (-7) (by decide)

/-- The structured story preferences collected by the form: the
StoryRequest value object of the specification, with one field per
widget of src/app.py. -/
structure StoryRequest where
  premise : String
  genre : String
  tone : String
  pov : String
  audience : String
  language : String
  include_title : Bool
  include_dialogue : Bool
  themes : String
  characters : String
  setting : String
  target_words : Int

/-- Embedding of the Python conditional expressions picking Yes or No
for the two flag lines (src/app.py lines 42-43). -/
def yesNo (b : Bool) : String := if b then "Yes" else "No"

/-- Embedding of the req list of build_user_prompt (src/app.py lines
45-52): the six requirement lines, the fifth chosen by include_dialogue
and the sixth chosen by include_title. -/
def req (include_dialogue include_title : Bool) : List String :=
  ["- Keep the narrative coherent with clear beginning, middle, and end.",
   "- Show, don\x27t just tell. Use sensory details and vivid imagery.",
   "- Maintain consistent POV and tense, unless stylistically justified.",
   "- Avoid explicit content; keep it appropriate for the selected audience.",
   if include_dialogue then
     "- Use natural, character-revealing dialogue where relevant."
   else
     "- Minimize dialogue; focus on narration and description.",
   if include_title then
     "- If a title is requested, place it on the first line and then a blank line before the story."
   else
     "- Do not include a title line."]

/-- Embedding of the parts list accumulated by build_user_prompt
(src/app.py lines 27-53): consecutive appends become list concatenation,
each conditional append becomes an if on the strip test, and Python
string truthiness is read as being nonempty. -/
def build_user_prompt_parts (r : StoryRequest) : List String :=
  ["Task: Write an original, engaging story that follows these specifications.",
   "Premise: " ++ (if pyStrip r.premise = "" then
     "Create a compelling story from scratch inspired by the genre and tone."
   else pyStrip r.premise),
   "Genre: " ++ r.genre,
   "Tone/Mood: " ++ r.tone,
   "Point of View: " ++ r.pov,
   "Intended Audience: " ++ r.audience,
   "Primary Language: " ++ r.language,
   "Target Length (approx.): " ++ toString r.target_words ++ " words"]
  ++ (if pyStrip r.themes = "" then [] else
      ["Key Themes and Motifs to Emphasize: " ++ r.themes])
  ++ (if pyStrip r.characters = "" then [] else
      ["Characters (names, roles, traits): " ++ r.characters])
  ++ (if pyStrip r.setting = "" then [] else
      ["Setting (time/place/atmosphere): " ++ r.setting])
  ++ ["Include a Title: " ++ yesNo r.include_title,
      "Include Dialogue: " ++ yesNo r.include_dialogue,
      "Requirements:"]
  ++ req r.include_dialogue r.include_title

/-- Embedding of build_user_prompt (src/app.py lines 13-54). -/
def build_user_prompt (r : StoryRequest) : String :=
  String.intercalate "\n" (build_user_prompt_parts r)

/-- The request of the end-to-end scenario in the spec: empty premise,
Fantasy, Hopeful, third person limited, General audience, English, both
flags on, all optional fields blank, 900 target words. -/
def example_request : StoryRequest :=
  ⟨"", "Fantasy", "Hopeful", "Third person limited", "General", "English",
    true, true, "", "", "", 900⟩

lemma themes_line_mem {r : StoryRequest} (h : pyStrip r.themes ≠ "") :
    "Key Themes and Motifs to Emphasize: " ++ r.themes
      ∈ build_user_prompt_parts r := by
  unfold build_user_prompt_parts
  rw [if_neg h]
  exact List.mem_append_left _ (List.mem_append_left _
    (List.mem_append_left _ (List.mem_append_left _
      (List.mem_append_right _ (List.mem_cons_self _ _)))))

lemma characters_line_mem {r : StoryRequest} (h : pyStrip r.characters ≠ "") :
    "Characters (names, roles, traits): " ++ r.characters
      ∈ build_user_prompt_parts r := by
  unfold build_user_prompt_parts
  rw [if_neg h]
  exact List.mem_append_left _ (List.mem_append_left _
    (List.mem_append_left _ (List.mem_append_right _
      (List.mem_cons_self _ _))))

lemma setting_line_mem {r : StoryRequest} (h : pyStrip r.setting ≠ "") :
    "Setting (time/place/atmosphere): " ++ r.setting
      ∈ build_user_prompt_parts r := by
  unfold build_user_prompt_parts
  rw [if_neg h]
  exact List.mem_append_left _ (List.mem_append_left _
    (List.mem_append_right _ (List.mem_cons_self _ _)))

/-- C2: for every StoryRequest, build_user_prompt produces exactly the
fixed sequence of labeled lines in this order: task line, premise,
genre, tone, POV, audience, language, target length, then each of
themes, characters and setting only when present, then the
include-title flag line, the include-dialogue flag line, the
Requirements header, and finally the six requirement lines. -/
theorem build_user_prompt_ordering (r : StoryRequest) :
    build_user_prompt r = String.intercalate "\n"
      (["Task: Write an original, engaging story that follows these specifications.",
        "Premise: " ++ (if pyStrip r.premise = "" then
          "Create a compelling story from scratch inspired by the genre and tone."
        else pyStrip r.premise),
        "Genre: " ++ r.genre,
        "Tone/Mood: " ++ r.tone,
        "Point of View: " ++ r.pov,
        "Intended Audience: " ++ r.audience,
        "Primary Language: " ++ r.language,
        "Target Length (approx.): " ++ toString r.target_words ++ " words"]
      ++ (if pyStrip r.themes = "" then [] else
          ["Key Themes and Motifs to Emphasize: " ++ r.themes])
      ++ (if pyStrip r.characters = "" then [] else
          ["Characters (names, roles, traits): " ++ r.characters])
      ++ (if pyStrip r.setting = "" then [] else
          ["Setting (time/place/atmosphere): " ++ r.setting])
      ++ ["Include a Title: " ++ yesNo r.include_title,
          "Include Dialogue: " ++ yesNo r.include_dialogue,
          "Requirements:"]
      ++ req r.include_dialogue r.include_title) := rfl

/-- C3: whenever the premise is blank after trimming, the premise line
of the prompt is exactly the fallback instruction; in the end-to-end
example with empty premise and 900 target words, the prompt contains
the fallback premise line and the 900-words target line, and the token
estimate at 900 is 1197. -/
theorem premise_fallback_spec :
    (∀ r : StoryRequest, pyStrip r.premise = "" →
      (build_user_prompt_parts r)[1]? =
        some "Premise: Create a compelling story from scratch inspired by the genre and tone.")
    ∧ "Premise: Create a compelling story from scratch inspired by the genre and tone."
        ∈ build_user_prompt_parts example_request
    ∧ "Target Length (approx.): 900 words" ∈ build_user_prompt_parts example_request
    ∧ estimate_max_tokens 900 = 1197 := by
  refine ⟨fun r h => ?_, by decide, by decide, by decide⟩
  unfold build_user_prompt_parts
  rw [h]
  rfl

/-- Witness for C3 at the concrete example request. -/
theorem premise_fallback_spec_witness :
    (build_user_prompt_parts example_request)[1]? =
      some "Premise: Create a compelling story from scratch inspired by the genre and tone." :=
  premise_fallback_spec.1 example_request (by decide)

/-- C9: the prompt depends on the premise only through its trimmed
value, and when the premise is non-blank the premise line shows the
trimmed premise. -/
theorem build_user_prompt_premise_strip :
    (∀ r : StoryRequest,
      build_user_prompt { r with premise := pyStrip r.premise }
        = build_user_prompt r)
    ∧ (∀ r : StoryRequest, pyStrip r.premise ≠ "" →
      (build_user_prompt_parts r)[1]? = some ("Premise: " ++ pyStrip r.premise)) := by
  constructor
  · intro r
    simp only [build_user_prompt, build_user_prompt_parts, pyStrip_idem]
  · intro r h
    unfold build_user_prompt_parts
    rw [if_neg h]
    rfl

/-- Witness for C9 at a concrete request with padded premise. -/
theorem build_user_prompt_premise_strip_witness :
    (build_user_prompt_parts
        ⟨" A tale. ", "g", "t", "p", "a", "l", true, true, "", "", "", 100⟩)[1]?
      = some "Premise: A tale." := by
  have h := build_user_prompt_premise_strip.2
    ⟨" A tale. ", "g", "t", "p", "a", "l", true, true, "", "", "", 100⟩ (by decide)
  rw [h]
  decide

/-- C10: when themes, characters or setting is non-blank after trimming,
the corresponding prompt line carries the original untrimmed field text
verbatim after its label. -/
theorem optional_lines_verbatim (r : StoryRequest) :
    (pyStrip r.themes ≠ "" →
      "Key Themes and Motifs to Emphasize: " ++ r.themes
        ∈ build_user_prompt_parts r)
    ∧ (pyStrip r.characters ≠ "" →
      "Characters (names, roles, traits): " ++ r.characters
        ∈ build_user_prompt_parts r)
    ∧ (pyStrip r.setting ≠ "" →
      "Setting (time/place/atmosphere): " ++ r.setting
        ∈ build_user_prompt_parts r) :=
  ⟨fun h => themes_line_mem h, fun h => characters_line_mem h,
    fun h => setting_line_mem h⟩

/-- Witness for C10 at a concrete request with padded optional fields. -/
theorem optional_lines_verbatim_witness :
    "Key Themes and Motifs to Emphasize:  hope " ∈ build_user_prompt_parts
      ⟨"p", "g", "t", "v", "a", "l", true, true, " hope ", " Ann ", " sea ", 100⟩
    ∧ "Characters (names, roles, traits):  Ann " ∈ build_user_prompt_parts
      ⟨"p", "g", "t", "v", "a", "l", true, true, " hope ", " Ann ", " sea ", 100⟩
    ∧ "Setting (time/place/atmosphere):  sea " ∈ build_user_prompt_parts
      ⟨"p", "g", "t", "v", "a", "l", true, true, " hope ", " Ann ", " sea ", 100⟩ :=
  ⟨(optional_lines_verbatim _).1 (by decide),
    ((optional_lines_verbatim _).2).1 (by decide),
    ((optional_lines_verbatim _).2).2 (by decide)⟩

lemma mem_ite_nil_right {c : Prop} [Decidable c] {a x : String}
    (h : a ∈ (if c then ([] : List String) else [x])) : a = x ∧ ¬c := by
  by_cases hc : c
  · rw [if_pos hc] at h
    simp at h
  · rw [if_neg hc] at h
    simp at h
    exact ⟨h, hc⟩

lemma mem_parts_classify (r : StoryRequest) (l : String)
    (hl : l ∈ build_user_prompt_parts r) :
    l.data.head? = some 'T' ∨ l.data.head? = some 'P' ∨ l.data.head? = some 'G'
    ∨ l.data.head? = some 'I' ∨ l.data.head? = some 'R'
    ∨ l.data.head? = some '-'
    ∨ (l = "Key Themes and Motifs to Emphasize: " ++ r.themes
        ∧ pyStrip r.themes ≠ "")
    ∨ (l = "Characters (names, roles, traits): " ++ r.characters
        ∧ pyStrip r.characters ≠ "")
    ∨ (l = "Setting (time/place/atmosphere): " ++ r.setting
        ∧ pyStrip r.setting ≠ "") := by
  unfold build_user_prompt_parts at hl
  simp only [List.mem_append] at hl
  rcases hl with ((((hA | hT) | hC) | hS) | hF) | hR
  · simp only [List.mem_cons, List.not_mem_nil, or_false] at hA
    rcases hA with rfl | rfl | rfl | rfl | rfl | rfl | rfl | rfl
    · exact Or.inl rfl
    · exact Or.inr (Or.inl rfl)
    · exact Or.inr (Or.inr (Or.inl rfl))
    · exact Or.inl rfl
    · exact Or.inr (Or.inl rfl)
    · exact Or.inr (Or.inr (Or.inr (Or.inl rfl)))
    · exact Or.inr (Or.inl rfl)
    · exact Or.inl rfl
  · rcases mem_ite_nil_right hT with ⟨rfl, hc⟩
    exact Or.inr (Or.inr (Or.inr (Or.inr (Or.inr (Or.inr (Or.inl ⟨rfl, hc⟩))))))
  · rcases mem_ite_nil_right hC with ⟨rfl, hc⟩
    exact Or.inr (Or.inr (Or.inr (Or.inr (Or.inr (Or.inr (Or.inr
      (Or.inl ⟨rfl, hc⟩)))))))
  · rcases mem_ite_nil_right hS with ⟨rfl, hc⟩
    exact Or.inr (Or.inr (Or.inr (Or.inr (Or.inr (Or.inr (Or.inr
      (Or.inr ⟨rfl, hc⟩)))))))
  · simp only [List.mem_cons, List.not_mem_nil, or_false] at hF
    rcases hF with rfl | rfl | rfl
    · exact Or.inr (Or.inr (Or.inr (Or.inl rfl)))
    · exact Or.inr (Or.inr (Or.inr (Or.inl rfl)))
    · exact Or.inr (Or.inr (Or.inr (Or.inr (Or.inl rfl))))
  · simp only [req, List.mem_cons, List.not_mem_nil, or_false] at hR
    rcases hR with rfl | rfl | rfl | rfl | rfl | rfl
    · exact Or.inr (Or.inr (Or.inr (Or.inr (Or.inr (Or.inl rfl)))))
    · exact Or.inr (Or.inr (Or.inr (Or.inr (Or.inr (Or.inl rfl)))))
    · exact Or.inr (Or.inr (Or.inr (Or.inr (Or.inr (Or.inl rfl)))))
    · exact Or.inr (Or.inr (Or.inr (Or.inr (Or.inr (Or.inl rfl)))))
    · refine Or.inr (Or.inr (Or.inr (Or.inr (Or.inr (Or.inl ?_)))))
      cases r.include_dialogue <;> rfl
    · refine Or.inr (Or.inr (Or.inr (Or.inr (Or.inr (Or.inl ?_)))))
      cases r.include_title <;> rfl

lemma mem_parts_of_head_K (r : StoryRequest) {l : String}
    (hl : l ∈ build_user_prompt_parts r) (hk : l.data.head? = some 'K') :
    pyStrip r.themes ≠ "" := by
  have hC : ("Characters (names, roles, traits): " ++ r.characters).data.head?
      = some 'C' := rfl
  have hS : ("Setting (time/place/atmosphere): " ++ r.setting).data.head?
      = some 'S' := rfl
  rcases mem_parts_classify r l hl with h | h | h | h | h | h | h | h | h
  · rw [hk] at h; exact absurd h (by decide)
  · rw [hk] at h; exact absurd h (by decide)
  · rw [hk] at h; exact absurd h (by decide)
  · rw [hk] at h; exact absurd h (by decide)
  · rw [hk] at h; exact absurd h (by decide)
  · rw [hk] at h; exact absurd h (by decide)
  · exact h.2
  · rw [h.1, hC] at hk; exact absurd hk (by decide)
  · rw [h.1, hS] at hk; exact absurd hk (by decide)

lemma mem_parts_of_head_C (r : StoryRequest) {l : String}
    (hl : l ∈ build_user_prompt_parts r) (hc : l.data.head? = some 'C') :
    pyStrip r.characters ≠ "" := by
  have hK : ("Key Themes and Motifs to Emphasize: " ++ r.themes).data.head?
      = some 'K' := rfl
  have hS : ("Setting (time/place/atmosphere): " ++ r.setting).data.head?
      = some 'S' := rfl
  rcases mem_parts_classify r l hl with h | h | h | h | h | h | h | h | h
  · rw [hc] at h; exact absurd h (by decide)
  · rw [hc] at h; exact absurd h (by decide)
  · rw [hc] at h; exact absurd h (by decide)
  · rw [hc] at h; exact absurd h (by decide)
  · rw [hc] at h; exact absurd h (by decide)
  · rw [hc] at h; exact absurd h (by decide)
  · rw [h.1, hK] at hc; exact absurd hc (by decide)
  · exact h.2
  · rw [h.1, hS] at hc; exact absurd hc (by decide)

lemma mem_parts_of_head_S (r : StoryRequest) {l : String}
    (hl : l ∈ build_user_prompt_parts r) (hs : l.data.head? = some 'S') :
    pyStrip r.setting ≠ "" := by
  have hK : ("Key Themes and Motifs to Emphasize: " ++ r.themes).data.head?
      = some 'K' := rfl
  have hC : ("Characters (names, roles, traits): " ++ r.characters).data.head?
      = some 'C' := rfl
  rcases mem_parts_classify r l hl with h | h | h | h | h | h | h | h | h
  · rw [hs] at h; exact absurd h (by decide)
  · rw [hs] at h; exact absurd h (by decide)
  · rw [hs] at h; exact absurd h (by decide)
  · rw [hs] at h; exact absurd h (by decide)
  · rw [hs] at h; exact absurd h (by decide)
  · rw [hs] at h; exact absurd h (by decide)
  · rw [h.1, hK] at hs; exact absurd hs (by decide)
  · rw [h.1, hC] at hs; exact absurd hs (by decide)
  · exact h.2

/-- C4: a themes, characters or setting line appears in the prompt if
and only if the corresponding field is non-blank after trimming; when a
field is blank no line with that label is present at all. -/
theorem optional_lines_iff (r : StoryRequest) :
    ((∃ t, "Key Themes and Motifs to Emphasize: " ++ t
        ∈ build_user_prompt_parts r) ↔ pyStrip r.themes ≠ "")
    ∧ ((∃ t, "Characters (names, roles, traits): " ++ t
        ∈ build_user_prompt_parts r) ↔ pyStrip r.characters ≠ "")
    ∧ ((∃ t, "Setting (time/place/atmosphere): " ++ t
        ∈ build_user_prompt_parts r) ↔ pyStrip r.setting ≠ "") := by
  refine ⟨⟨?_, fun h => ⟨r.themes, themes_line_mem h⟩⟩,
    ⟨?_, fun h => ⟨r.characters, characters_line_mem h⟩⟩,
    ⟨?_, fun h => ⟨r.setting, setting_line_mem h⟩⟩⟩
  · rintro ⟨t, hmem⟩
    exact mem_parts_of_head_K r hmem rfl
  · rintro ⟨t, hmem⟩
    exact mem_parts_of_head_C r hmem rfl
  · rintro ⟨t, hmem⟩
    exact mem_parts_of_head_S r hmem rfl

/-- Witness for C4 at a concrete request with blank optional fields. -/
theorem optional_lines_iff_witness :
    ¬ ∃ t, "Key Themes and Motifs to Emphasize: " ++ t
      ∈ build_user_prompt_parts example_request := by
  intro h
  exact absurd ((optional_lines_iff example_request).1.mp h) (by decide)

/-- C5: the requirements block holds exactly six lines directly after
the Requirements header; exactly one of the dialogue-emphasis and
narration-emphasis lines appears, chosen by include_dialogue, and
exactly one of the title-placement and no-title lines appears, chosen
by include_title, never both of a pair. -/
theorem requirements_block_spec (r : StoryRequest) :
    (req r.include_dialogue r.include_title).length = 6
    ∧ ("Requirements:" :: req r.include_dialogue r.include_title)
        <:+ build_user_prompt_parts r
    ∧ ("- Use natural, character-revealing dialogue where relevant."
        ∈ req r.include_dialogue r.include_title ↔ r.include_dialogue = true)
    ∧ ("- Minimize dialogue; focus on narration and description."
        ∈ req r.include_dialogue r.include_title ↔ r.include_dialogue = false)
    ∧ ¬("- Use natural, character-revealing dialogue where relevant."
          ∈ req r.include_dialogue r.include_title
        ∧ "- Minimize dialogue; focus on narration and description."
          ∈ req r.include_dialogue r.include_title)
    ∧ ("- If a title is requested, place it on the first line and then a blank line before the story."
        ∈ req r.include_dialogue r.include_title ↔ r.include_title = true)
    ∧ ("- Do not include a title line."
        ∈ req r.include_dialogue r.include_title ↔ r.include_title = false)
    ∧ ¬("- If a title is requested, place it on the first line and then a blank line before the story."
          ∈ req r.include_dialogue r.include_title
        ∧ "- Do not include a title line."
          ∈ req r.include_dialogue r.include_title) := by
  refine ⟨rfl, ⟨["Task: Write an original, engaging story that follows these specifications.",
      "Premise: " ++ (if pyStrip r.premise = "" then
        "Create a compelling story from scratch inspired by the genre and tone."
      else pyStrip r.premise),
      "Genre: " ++ r.genre,
      "Tone/Mood: " ++ r.tone,
      "Point of View: " ++ r.pov,
      "Intended Audience: " ++ r.audience,
      "Primary Language: " ++ r.language,
      "Target Length (approx.): " ++ toString r.target_words ++ " words"]
    ++ (if pyStrip r.themes = "" then [] else
        ["Key Themes and Motifs to Emphasize: " ++ r.themes])
    ++ (if pyStrip r.characters = "" then [] else
        ["Characters (names, roles, traits): " ++ r.characters])
    ++ (if pyStrip r.setting = "" then [] else
        ["Setting (time/place/atmosphere): " ++ r.setting])
    ++ ["Include a Title: " ++ yesNo r.include_title,
        "Include Dialogue: " ++ yesNo r.include_dialogue], ?_⟩, ?_⟩
  · simp [build_user_prompt_parts, List.append_assoc]
  · cases r.include_dialogue <;> cases r.include_title <;> exact (by decide)

/-- Witness for C5 at a concrete request with both flags on. -/
theorem requirements_block_spec_witness :
    "- Use natural, character-revealing dialogue where relevant."
      ∈ req example_request.include_dialogue example_request.include_title :=
  ((requirements_block_spec example_request).2.2.1).mpr rfl

/-- One chat message of the external completion interface. -/
structure ChatMessage where
  role : String
  content : String

/-- One completion candidate returned by the external service. -/
structure ChatChoice where
  message : ChatMessage

/-- The response shape consumed by generate_story: a list of candidate
completions. -/
structure ChatResponse where
  choices : List ChatChoice

/-- The request shape produced by generate_story for the external
chat-completion endpoint. -/
structure ChatRequest where
  model : String
  messages : List ChatMessage
  temperature : ℚ
  max_tokens : Int
  n : Int

/-- The single request submitted by generate_story (src/app.py lines
62-73): the two fixed system messages, then the user prompt, with
model, temperature and max_tokens passed through and n = 1. -/
def generate_story_request (model user_prompt : String) (temperature : ℚ)
    (max_tokens : Int) : ChatRequest :=
  ⟨model,
    [⟨"system", "You are a helpful assistant."⟩,
     ⟨"system", "You are an award-winning fiction writer who crafts vivid, emotionally resonant stories while strictly following the user\x27s specifications."⟩,
     ⟨"user", user_prompt⟩],
    temperature, max_tokens, 1⟩

/-- Embedding of generate_story (src/app.py lines 56-74).  The external
client is an injected transport from requests to a response or a raised
error; the Python expression response.choices[0].message.content is the
inner match, raising an index error on an empty candidate list. -/
def generate_story (call : ChatRequest → Except String ChatResponse)
    (model : String) (user_prompt : String) (temperature : ℚ)
    (max_tokens : Int) : Except String String :=
  match call (generate_story_request model user_prompt temperature max_tokens) with
  | Except.error e => Except.error e
  | Except.ok response =>
    match response.choices with
    | [] => Except.error "list index out of range"
    | choice :: _ => Except.ok choice.message.content

/-- Embedding of the submission branch of app (src/app.py lines
116-141): on success the story state is replaced, on failure the state
is kept and an error notice interpolating the exception text is shown.
The first component of the result is the story state, the second the
error notice. -/
def handle_submit (call : ChatRequest → Except String ChatResponse)
    (model : String) (temperature : ℚ) (r : StoryRequest)
    (story_text : Option String) : Option String × Option String :=
  match generate_story call model (build_user_prompt r) temperature
      (estimate_max_tokens r.target_words) with
  | Except.ok story => (some story, none)
  | Except.error e => (story_text, some ("Failed to generate story: " ++ e))

/-- C6: generate_story submits one request whose message list is exactly
the two fixed system messages followed by the user prompt, passes model,
temperature and max_tokens through unchanged with exactly one candidate
requested, and returns the first candidate text verbatim; its outcome
depends on the transport only through its value at that one request. -/
theorem generate_story_contract :
    (∀ (model user_prompt : String) (temperature : ℚ) (max_tokens : Int),
      (generate_story_request model user_prompt temperature max_tokens).messages
          = [⟨"system", "You are a helpful assistant."⟩,
             ⟨"system", "You are an award-winning fiction writer who crafts vivid, emotionally resonant stories while strictly following the user\x27s specifications."⟩,
             ⟨"user", user_prompt⟩]
        ∧ (generate_story_request model user_prompt temperature max_tokens).model
            = model
        ∧ (generate_story_request model user_prompt temperature max_tokens).temperature
            = temperature
        ∧ (generate_story_request model user_prompt temperature max_tokens).max_tokens
            = max_tokens
        ∧ (generate_story_request model user_prompt temperature max_tokens).n = 1)
    ∧ (∀ (call : ChatRequest → Except String ChatResponse)
        (model user_prompt : String) (temperature : ℚ) (max_tokens : Int)
        (response : ChatResponse) (choice : ChatChoice) (rest : List ChatChoice),
        call (generate_story_request model user_prompt temperature max_tokens)
            = Except.ok response →
        response.choices = choice :: rest →
        generate_story call model user_prompt temperature max_tokens
            = Except.ok choice.message.content)
    ∧ (∀ (call call2 : ChatRequest → Except String ChatResponse)
        (model user_prompt : String) (temperature : ℚ) (max_tokens : Int),
        call (generate_story_request model user_prompt temperature max_tokens)
          = call2 (generate_story_request model user_prompt temperature max_tokens) →
        generate_story call model user_prompt temperature max_tokens
          = generate_story call2 model user_prompt temperature max_tokens) := by
  refine ⟨fun model user_prompt temperature max_tokens =>
    ⟨rfl, rfl, rfl, rfl, rfl⟩, ?_, ?_⟩
  · intro call model user_prompt temperature max_tokens response choice rest h1 h2
    simp only [generate_story, h1, h2]
  · intro call call2 model user_prompt temperature max_tokens h
    simp only [generate_story, h]

/-- A transport that always answers with one fixed candidate. -/
def okCall : ChatRequest → Except String ChatResponse :=
  fun _ => Except.ok ⟨[⟨⟨"assistant", "Once upon a time."⟩⟩]⟩

/-- Witness for C6 with a concrete transport and prompt. -/
theorem generate_story_contract_witness :
    generate_story okCall "gpt-4" "p" 1 256 = Except.ok "Once upon a time." :=
  generate_story_contract.2.1 okCall "gpt-4" "p" 1 256
    ⟨[⟨⟨"assistant", "Once upon a time."⟩⟩]⟩ ⟨⟨"assistant", "Once upon a time."⟩⟩
    [] rfl rfl

/-- C7: any failure of the external call propagates unchanged out of
generate_story with no retry, and the submit handler reports it as a
user-facing notice interpolating the underlying error text while
leaving the previously displayed story state unchanged. -/
theorem generation_error_spec :
    ∀ (call : ChatRequest → Except String ChatResponse) (model : String)
      (temperature : ℚ) (r : StoryRequest) (story_text : Option String)
      (e : String),
      call (generate_story_request model (build_user_prompt r) temperature
          (estimate_max_tokens r.target_words)) = Except.error e →
      generate_story call model (build_user_prompt r) temperature
          (estimate_max_tokens r.target_words) = Except.error e
      ∧ handle_submit call model temperature r story_text
          = (story_text, some ("Failed to generate story: " ++ e)) := by
  intro call model temperature r story_text e hcall
  have hg : generate_story call model (build_user_prompt r) temperature
      (estimate_max_tokens r.target_words) = Except.error e := by
    simp only [generate_story, hcall]
  exact ⟨hg, by simp only [handle_submit, hg]⟩

/-- A transport that always fails. -/
def errCall : ChatRequest → Except String ChatResponse :=
  fun _ => Except.error "boom"

/-- Witness for C7 with a concrete failing transport. -/
theorem generation_error_spec_witness :
    handle_submit errCall "gpt-4" 1 example_request (some "old story")
      = (some "old story", some "Failed to generate story: boom") := by
  have h := generation_error_spec errCall "gpt-4" 1 example_request
    (some "old story") "boom" rfl
  rw [h.2]
  rfl
